import Mathlib

/-!
Shallow embedding of `src/server.py` (BroOffline backend).

The server is a small Flask app with three routes; the two the spec covers
are `/chat` (mode dispatch between a free-form LLM completion and a
retrieval-augmented query over a local document index) and `/reload-docs`
(rebuild the global index from the docs directory).

Modelling choices:
* The external llama-index / Ollama library calls are opaque to this
  repository; they are modelled as parameters.  `Lib.load_data` models
  `SimpleDirectoryReader(DOCS_DIR).load_data()` and may fail (raise);
  `Backends.complete` models `llm.complete(msg).text` and `Backends.query`
  models `str(index.as_query_engine(llm=llm).query(msg))`.
* A `VectorStoreIndex` is identified by its construction parameters: the
  list of documents it was built from and the embedding model name, which
  is exactly the information `VectorStoreIndex.from_documents(documents,
  embed_model=embed_model)` receives.
* The filesystem state relevant to the program is the docs directory:
  whether it exists and the documents it holds.
* JSON response bodies built by `jsonify` are association lists of
  string-valued fields, in the order the Python dict literal gives them.
* The handler records every backend invocation in a `calls` list so that
  "which backend ran" is an observable of the embedding.
-/

namespace BroOffline

/-- Config constant `DOCS_DIR = "./docs"` (server.py line 11). -/
def DOCS_DIR : String := "./docs"

/-- Config constant `LLM_MODEL = "qwen2:7b"` (server.py line 12). -/
def LLM_MODEL : String := "qwen2:7b"

/-- Config constant `EMBED_MODEL = "nomic-embed-text"` (server.py line 13). -/
def EMBED_MODEL : String := "nomic-embed-text"

/-- Config constant `REQUEST_TIMEOUT = 120.0` seconds (server.py line 14);
modelled in whole seconds. -/
def REQUEST_TIMEOUT : Nat := 120

/-- The `Ollama(model=..., request_timeout=...)` handle (server.py line 25). -/
structure OllamaLLM where
  model : String
  request_timeout : Nat
deriving DecidableEq

/-- The global `llm` object (server.py line 25). -/
def initLLM : OllamaLLM := { model := LLM_MODEL, request_timeout := REQUEST_TIMEOUT }

/-- A `VectorStoreIndex`, identified by the documents it was built from and
the embedding model used (server.py line 35). -/
structure Index where
  docs : List String
  embed_model : String
deriving DecidableEq

/-- State of the docs directory: whether `./docs` exists and, when it does,
the documents it contains. -/
structure FS where
  dirExists : Bool
  docs : List String
deriving DecidableEq

/-- `os.makedirs(DOCS_DIR)` (server.py line 33): creates the directory,
empty. -/
def os_makedirs (_fs : FS) : FS := { dirExists := true, docs := [] }

/-- External library behaviour: `SimpleDirectoryReader(DOCS_DIR).load_data()`
(server.py line 34).  The library is not part of this repository, so its
read is an opaque, possibly-raising function of the directory state. -/
structure Lib where
  load_data : FS → Except String (List String)

/-- `load_or_create_index` (server.py lines 31-35): create `./docs` if
absent, read its documents, build a vector index from them with the
configured embedding model.  Returns the directory state after the
possible `makedirs` together with the result; an error models an exception
propagating out of the function. -/
def load_or_create_index (lib : Lib) (fs : FS) : FS × Except String Index :=
  let fs' := if fs.dirExists then fs else os_makedirs fs
  match lib.load_data fs' with
  | .error e => (fs', .error e)
  | .ok documents => (fs', .ok { docs := documents, embed_model := EMBED_MODEL })

/-- The mutable module-level globals of server.py: `llm`, `embed_model`
and `index` (lines 25, 26, 37; only `index` is ever reassigned). -/
structure ServerState where
  llm : OllamaLLM
  embed_model : String
  index : Index
deriving DecidableEq

/-- External backend behaviour for `/chat`: `complete llm msg` models
`llm.complete(msg).text`; `query idx llm msg` models
`str(idx.as_query_engine(llm=llm).query(msg))`. -/
structure Backends where
  complete : OllamaLLM → String → String
  query : Index → OllamaLLM → String → String

/-- A recorded invocation of one of the two backends. -/
inductive BackendCall where
  | llmComplete (llm : OllamaLLM) (msg : String)
  | docsQuery (idx : Index) (llm : OllamaLLM) (msg : String)
deriving DecidableEq

/-- The message string a backend call forwarded. -/
def BackendCall.msg : BackendCall → String
  | .llmComplete _ m => m
  | .docsQuery _ _ m => m

/-- An HTTP response: status code and JSON-object body as an association
list of string fields. -/
structure Resp where
  status : Nat
  fields : List (String × String)
deriving DecidableEq

/-- The JSON body of a `/chat` request, restricted to the keys the handler
reads.  `none` in `message` / `mode` means the key is absent.  (A body
that is an empty dict is falsy in Python, but it also lacks the
`"message"` key, so `not data or "message" not in data` collapses to
`message` being absent.) -/
structure ChatBody where
  message : Option String
  mode : Option String
deriving DecidableEq

/-- Result of running the `/chat` handler: the HTTP response, the backend
calls made, and the server globals afterwards (the handler assigns no
global, so the state is returned unchanged). -/
structure ChatOut where
  resp : Resp
  calls : List BackendCall
  state : ServerState
deriving DecidableEq

/-- Whitespace for Python `str.strip()`: ASCII whitespace plus the
Unicode space characters CPython strips. -/
def isPySpace (c : Char) : Bool :=
  let n := c.toNat
  n = 0x20 ∨ (0x9 ≤ n ∧ n ≤ 0xD) ∨ (0x1C ≤ n ∧ n ≤ 0x1F) ∨ n = 0x85 ∨ n = 0xA0 ∨
    n = 0x1680 ∨ (0x2000 ≤ n ∧ n ≤ 0x200A) ∨ n = 0x2028 ∨ n = 0x2029 ∨
    n = 0x202F ∨ n = 0x205F ∨ n = 0x3000

/-- Python `str.strip()`: drop leading and trailing whitespace. -/
def pyStrip (s : String) : String :=
  String.mk (((s.data.dropWhile isPySpace).reverse.dropWhile isPySpace).reverse)

/-- Python `str.lower()` on one character: the Unicode simple lowercase
mapping restricted to the Latin blocks (ASCII, Latin-1 Supplement, Latin
Extended-A, the Vietnamese horn letters, Latin Extended Additional);
characters outside these blocks are returned unchanged.  These blocks
cover every character whose CPython lowercase contains a character of the
keyword list below. -/
def pyCharLower (c : Char) : Char :=
  let n := c.toNat
  if 0x41 ≤ n ∧ n ≤ 0x5A then Char.ofNat (n + 0x20)
  else if 0xC0 ≤ n ∧ n ≤ 0xDE ∧ n ≠ 0xD7 then Char.ofNat (n + 0x20)
  else if (0x100 ≤ n ∧ n ≤ 0x137 ∨ 0x14A ≤ n ∧ n ≤ 0x177) ∧ n % 2 = 0 then
    Char.ofNat (n + 1)
  else if (0x139 ≤ n ∧ n ≤ 0x148 ∨ 0x179 ≤ n ∧ n ≤ 0x17E) ∧ n % 2 = 1 then
    Char.ofNat (n + 1)
  else if n = 0x1A0 ∨ n = 0x1AF then Char.ofNat (n + 1)
  else if (0x1E00 ≤ n ∧ n ≤ 0x1E95 ∨ 0x1EA0 ≤ n ∧ n ≤ 0x1EF9) ∧ n % 2 = 0 then
    Char.ofNat (n + 1)
  else c

/-- Python `str.lower()`. -/
def pyLower (s : String) : String := String.mk (s.data.map pyCharLower)

/-- The keyword list of the auto-detection branch (server.py line 134). -/
def AUTO_DOC_KEYWORDS : List String := ["tài liệu", "document", "file", "docs"]

/-- Python `k in s`: substring containment. -/
def containsSub (k s : String) : Bool := decide (k.toList <:+: s.toList)

/-- Lines 134-137: `mode = "docs"` if any keyword occurs in
`user_message.lower()`, else `mode = "llm"`. -/
def autoDetect (user_message : String) : String :=
  if AUTO_DOC_KEYWORDS.any (fun k => containsSub k (pyLower user_message)) then "docs"
  else "llm"

/-- Lines 130-137: the mode after defaulting and auto-detection, given
the `mode` value from the body (already defaulted to `"auto"`). -/
def resolveMode (mode : String) (user_message : String) : String :=
  if mode = "auto" then autoDetect user_message else mode

/-- Error body of the missing-message branch (server.py line 127). -/
def missingMessageError : String := "Thiếu \x27message\x27"

/-- Error body of the invalid-mode branch (server.py line 149). -/
def invalidModeError (mode : String) : String :=
  "Mode \x27" ++ mode ++ "\x27 không hợp lệ"

/-- The `/chat` handler (server.py lines 116-149). `data` is
`request.json` (`none` when the request carried no JSON body). -/
def chat (st : ServerState) (B : Backends) (data : Option ChatBody) : ChatOut :=
  match data with
  | none => ⟨⟨400, [("error", missingMessageError)]⟩, [], st⟩
  | some d =>
    match d.message with
    | none => ⟨⟨400, [("error", missingMessageError)]⟩, [], st⟩
    | some m =>
      let user_message := pyStrip m
      let mode := resolveMode (d.mode.getD "auto") user_message
      if mode = "llm" then
        let response := B.complete st.llm user_message
        ⟨⟨200, [("mode", "llm"), ("response", response)]⟩,
         [.llmComplete st.llm user_message], st⟩
      else if mode = "docs" then
        let response := B.query st.index st.llm user_message
        ⟨⟨200, [("mode", "docs"), ("response", response)]⟩,
         [.docsQuery st.index st.llm user_message], st⟩
      else
        ⟨⟨400, [("error", invalidModeError mode)]⟩, [], st⟩

/-- The `/reload-docs` handler (server.py lines 154-159): rebuild the
index and assign it to the global; on an exception the error propagates
and no assignment happens. -/
def reload_docs (lib : Lib) (fs : FS) (st : ServerState) :
    Except String Resp × FS × ServerState :=
  match load_or_create_index lib fs with
  | (fs', .error e) => (.error e, fs', st)
  | (fs', .ok idx) =>
      (.ok ⟨200, [("status", "ok"), ("message", "Tài liệu đã được reload")]⟩, fs',
       { st with index := idx })

/-- Sample concrete values used by the witness theorems. -/
def sampleIndex : Index := { docs := ["doc one"], embed_model := EMBED_MODEL }

def sampleState : ServerState :=
  { llm := initLLM, embed_model := EMBED_MODEL, index := sampleIndex }

def sampleBackends : Backends :=
  { complete := fun _ m => "llm says " ++ m
    query := fun _ _ m => "docs say " ++ m }

/-- A library read that returns exactly the directory contents. -/
def sampleLib : Lib := { load_data := fun fs => .ok fs.docs }

/-- A library read that raises. -/
def failLib : Lib := { load_data := fun _ => .error "boom" }

/-- C1: for a `/chat` request whose resolved mode is `"auto"` (the body's
`mode` field is `"auto"` or absent), the message is classified into
exactly one of two modes by keyword matching: the response's `mode` field
is `"docs"` if the lower-cased, whitespace-stripped message contains one
of the substrings `"tài liệu"`, `"document"`, `"file"`, `"docs"`, and
`"llm"` otherwise. -/
theorem chat_auto_keyword_classification (st : ServerState) (B : Backends)
    (msg : String) (m? : Option String)
    (h : m? = none ∨ m? = some "auto") :
    (chat st B (some ⟨some msg, m?⟩)).resp.status = 200 ∧
    (chat st B (some ⟨some msg, m?⟩)).resp.fields.head? =
      some ("mode",
        if AUTO_DOC_KEYWORDS.any (fun k => containsSub k (pyLower (pyStrip msg)))
        then "docs" else "llm") := by
  rcases h with h | h <;> subst h <;>
    cases hb : AUTO_DOC_KEYWORDS.any (fun k => containsSub k (pyLower (pyStrip msg))) <;>
      simp [chat, resolveMode, autoDetect, hb]

/-- Witness for C1 at a concrete request: `" need the File "` with mode
`"auto"` resolves to docs. -/
theorem chat_auto_keyword_classification_witness :
    (some "auto" = (none : Option String) ∨ some "auto" = some "auto") ∧
    ((chat sampleState sampleBackends (some ⟨some " need the File ", some "auto"⟩)).resp.status = 200 ∧
     (chat sampleState sampleBackends (some ⟨some " need the File ", some "auto"⟩)).resp.fields.head? =
       some ("mode",
         if AUTO_DOC_KEYWORDS.any
             (fun k => containsSub k (pyLower (pyStrip " need the File ")))
         then "docs" else "llm")) :=
  ⟨Or.inr rfl,
   chat_auto_keyword_classification sampleState sampleBackends " need the File "
     (some "auto") (Or.inr rfl)⟩

/-- C2: for a `/chat` request with a message and a mode among `"auto"`
(or absent), `"llm"`, `"docs"`, exactly one backend is invoked — a single
`llm.complete` call when the resolved mode is `"llm"`, a single query of
the index when it is `"docs"` — never both, never neither, and the
response's `mode` field names the backend that ran. -/
theorem chat_dispatches_exactly_one_backend (st : ServerState) (B : Backends)
    (msg : String) (m? : Option String)
    (h : m? = none ∨ m? = some "auto" ∨ m? = some "llm" ∨ m? = some "docs") :
    (∃ r, (chat st B (some ⟨some msg, m?⟩)).calls = [.llmComplete st.llm (pyStrip msg)] ∧
      (chat st B (some ⟨some msg, m?⟩)).resp = ⟨200, [("mode", "llm"), ("response", r)]⟩) ∨
    (∃ r, (chat st B (some ⟨some msg, m?⟩)).calls = [.docsQuery st.index st.llm (pyStrip msg)] ∧
      (chat st B (some ⟨some msg, m?⟩)).resp = ⟨200, [("mode", "docs"), ("response", r)]⟩) := by
  rcases h with h | h | h | h <;> subst h <;>
    cases hb : AUTO_DOC_KEYWORDS.any (fun k => containsSub k (pyLower (pyStrip msg))) <;>
      simp [chat, resolveMode, autoDetect, hb]

/-- Witness for C2 at a concrete request: message `"hello"` with mode
absent dispatches to exactly one backend. -/
theorem chat_dispatches_exactly_one_backend_witness :
    ((none : Option String) = none ∨ (none : Option String) = some "auto" ∨
      (none : Option String) = some "llm" ∨ (none : Option String) = some "docs") ∧
    ((∃ r, (chat sampleState sampleBackends (some ⟨some "hello", none⟩)).calls =
          [.llmComplete sampleState.llm (pyStrip "hello")] ∧
        (chat sampleState sampleBackends (some ⟨some "hello", none⟩)).resp =
          ⟨200, [("mode", "llm"), ("response", r)]⟩) ∨
     (∃ r, (chat sampleState sampleBackends (some ⟨some "hello", none⟩)).calls =
          [.docsQuery sampleState.index sampleState.llm (pyStrip "hello")] ∧
        (chat sampleState sampleBackends (some ⟨some "hello", none⟩)).resp =
          ⟨200, [("mode", "docs"), ("response", r)]⟩)) :=
  ⟨Or.inl rfl,
   chat_dispatches_exactly_one_backend sampleState sampleBackends "hello" none (Or.inl rfl)⟩

/-- C6: for a valid `/chat` request the text forwarded to the selected
backend is the message with leading and trailing whitespace stripped and
is otherwise unmodified, and keyword auto-detection is applied to that
same stripped string. -/
theorem chat_forwards_stripped_message (st : ServerState) (B : Backends)
    (msg : String) (m? : Option String)
    (h : m? = none ∨ m? = some "auto" ∨ m? = some "llm" ∨ m? = some "docs") :
    ((chat st B (some ⟨some msg, m?⟩)).calls.length = 1 ∧
      ∀ c ∈ (chat st B (some ⟨some msg, m?⟩)).calls, BackendCall.msg c = pyStrip msg) ∧
    ((m? = none ∨ m? = some "auto") →
      (chat st B (some ⟨some msg, m?⟩)).resp.fields.head? =
        some ("mode", autoDetect (pyStrip msg))) := by
  rcases h with h | h | h | h <;> subst h <;>
    cases hb : AUTO_DOC_KEYWORDS.any (fun k => containsSub k (pyLower (pyStrip msg))) <;>
      simp [chat, resolveMode, autoDetect, hb, BackendCall.msg]

/-- Witness for C6 at a concrete request: `"  what is in the docs?  "`
with mode absent forwards the stripped text to a single backend call. -/
theorem chat_forwards_stripped_message_witness :
    ((none : Option String) = none ∨ (none : Option String) = some "auto" ∨
      (none : Option String) = some "llm" ∨ (none : Option String) = some "docs") ∧
    (((chat sampleState sampleBackends (some ⟨some "  what is in the docs?  ", none⟩)).calls.length = 1 ∧
       ∀ c ∈ (chat sampleState sampleBackends (some ⟨some "  what is in the docs?  ", none⟩)).calls,
         BackendCall.msg c = pyStrip "  what is in the docs?  ") ∧
     (((none : Option String) = none ∨ (none : Option String) = some "auto") →
       (chat sampleState sampleBackends (some ⟨some "  what is in the docs?  ", none⟩)).resp.fields.head? =
         some ("mode", autoDetect (pyStrip "  what is in the docs?  ")))) :=
  ⟨Or.inl rfl,
   chat_forwards_stripped_message sampleState sampleBackends "  what is in the docs?  "
     none (Or.inl rfl)⟩

/-- C7: a `/chat` request whose JSON body is missing or lacks a
`"message"` key (an empty body in particular lacks it) returns HTTP 400
with a JSON error object, invokes neither backend, and leaves the server
state unchanged. -/
theorem chat_missing_message_400 (st : ServerState) (B : Backends)
    (data : Option ChatBody)
    (h : data = none ∨ ∃ d, data = some d ∧ d.message = none) :
    chat st B data = ⟨⟨400, [("error", missingMessageError)]⟩, [], st⟩ := by
  rcases h with h | ⟨d, hd, hm⟩
  · subst h; rfl
  · subst hd
    obtain ⟨dmsg, dmode⟩ := d
    cases hm
    rfl

/-- Witness for C7 at a concrete request: a body carrying only a mode
and no message is rejected with 400. -/
theorem chat_missing_message_400_witness :
    ((some ⟨none, some "llm"⟩ : Option ChatBody) = none ∨
      ∃ d, (some ⟨none, some "llm"⟩ : Option ChatBody) = some d ∧ d.message = none) ∧
    chat sampleState sampleBackends (some ⟨none, some "llm"⟩) =
      ⟨⟨400, [("error", missingMessageError)]⟩, [], sampleState⟩ :=
  ⟨Or.inr ⟨⟨none, some "llm"⟩, rfl, rfl⟩,
   chat_missing_message_400 sampleState sampleBackends (some ⟨none, some "llm"⟩)
     (Or.inr ⟨⟨none, some "llm"⟩, rfl, rfl⟩)⟩

/-- C3: a successful (HTTP 200) `/chat` response is a JSON object with
exactly the two fields `mode` and `response`, where `mode` is the
resolved mode (`"llm"` or `"docs"`) and `response` is the text produced
by the backend that was invoked (`response.text` for llm,
`str(response)` for docs). -/
theorem chat_success_response_shape (st : ServerState) (B : Backends)
    (data : Option ChatBody) (h : (chat st B data).resp.status = 200) :
    ∃ d m, data = some d ∧ d.message = some m ∧
      ((chat st B data).resp.fields =
          [("mode", "llm"), ("response", B.complete st.llm (pyStrip m))] ∧
        (chat st B data).calls = [.llmComplete st.llm (pyStrip m)] ∨
       (chat st B data).resp.fields =
          [("mode", "docs"), ("response", B.query st.index st.llm (pyStrip m))] ∧
        (chat st B data).calls = [.docsQuery st.index st.llm (pyStrip m)]) := by
  match data with
  | none => simp [chat] at h
  | some ⟨none, dmode⟩ => simp [chat] at h
  | some ⟨some m, dmode⟩ =>
    refine ⟨⟨some m, dmode⟩, m, rfl, rfl, ?_⟩
    by_cases h1 : resolveMode (dmode.getD "auto") (pyStrip m) = "llm"
    · simp [chat, h1]
    · by_cases h2 : resolveMode (dmode.getD "auto") (pyStrip m) = "docs"
      · simp [chat, h1, h2]
      · simp [chat, h1, h2] at h

/-- Witness for C3 at a concrete request: a 200 response for message
`"hello"` has exactly the fields `mode` and `response`. -/
theorem chat_success_response_shape_witness :
    (chat sampleState sampleBackends (some ⟨some "hello", none⟩)).resp.status = 200 ∧
    ∃ d m, (some ⟨some "hello", none⟩ : Option ChatBody) = some d ∧ d.message = some m ∧
      ((chat sampleState sampleBackends (some ⟨some "hello", none⟩)).resp.fields =
          [("mode", "llm"),
           ("response", sampleBackends.complete sampleState.llm (pyStrip m))] ∧
        (chat sampleState sampleBackends (some ⟨some "hello", none⟩)).calls =
          [.llmComplete sampleState.llm (pyStrip m)] ∨
       (chat sampleState sampleBackends (some ⟨some "hello", none⟩)).resp.fields =
          [("mode", "docs"),
           ("response", sampleBackends.query sampleState.index sampleState.llm (pyStrip m))] ∧
        (chat sampleState sampleBackends (some ⟨some "hello", none⟩)).calls =
          [.docsQuery sampleState.index sampleState.llm (pyStrip m)]) :=
  ⟨rfl,
   chat_success_response_shape sampleState sampleBackends (some ⟨some "hello", none⟩) rfl⟩

/-- C4: a `/reload-docs` request on which `load_or_create_index`
succeeds replaces the global index with the freshly built one, answers
HTTP 200 with `status` equal to `"ok"`, and modifies no other server
state (the `llm` and `embed_model` globals are unchanged). -/
theorem reload_docs_success (lib : Lib) (fs : FS) (st : ServerState)
    (fs' : FS) (idx : Index)
    (h : load_or_create_index lib fs = (fs', .ok idx)) :
    reload_docs lib fs st =
      (.ok ⟨200, [("status", "ok"), ("message", "Tài liệu đã được reload")]⟩, fs',
       ⟨st.llm, st.embed_model, idx⟩) := by
  unfold reload_docs
  rw [h]

/-- Witness for C4 at a concrete state: reloading over a directory
holding one document installs the index built from it. -/
theorem reload_docs_success_witness :
    load_or_create_index sampleLib ⟨true, ["a"]⟩ =
      (⟨true, ["a"]⟩, .ok ⟨["a"], EMBED_MODEL⟩) ∧
    reload_docs sampleLib ⟨true, ["a"]⟩ sampleState =
      (.ok ⟨200, [("status", "ok"), ("message", "Tài liệu đã được reload")]⟩,
       ⟨true, ["a"]⟩, ⟨sampleState.llm, sampleState.embed_model, ⟨["a"], EMBED_MODEL⟩⟩) :=
  ⟨rfl, reload_docs_success sampleLib ⟨true, ["a"]⟩ sampleState ⟨true, ["a"]⟩
    ⟨["a"], EMBED_MODEL⟩ rfl⟩

/-- C5: `load_or_create_index` creates `./docs` first when it is absent,
reads the documents from the resulting directory, and on a successful
read returns a vector index built from exactly those documents with the
configured embedding model; an absent directory behaves exactly like a
freshly created empty one, so absence alone never causes a failure. -/
theorem load_or_create_index_spec (lib : Lib) (fs : FS) :
    (load_or_create_index lib fs).1.dirExists = true ∧
    (fs.dirExists = true → (load_or_create_index lib fs).1 = fs) ∧
    (fs.dirExists = false → (load_or_create_index lib fs).1 = FS.mk true []) ∧
    (∀ documents, lib.load_data (load_or_create_index lib fs).1 = .ok documents →
      (load_or_create_index lib fs).2 = .ok (Index.mk documents EMBED_MODEL)) ∧
    (fs.dirExists = false →
      load_or_create_index lib fs = load_or_create_index lib (FS.mk true [])) := by
  obtain ⟨de, docs⟩ := fs
  cases de <;>
    · simp only [load_or_create_index, os_makedirs, Bool.false_eq_true, if_false, if_true,
        Bool.true_eq_false, imp_false, forall_const]
      cases hl : lib.load_data ⟨true, docs⟩ <;> cases hl2 : lib.load_data ⟨true, []⟩ <;>
        simp_all

/-- Witness for C5 at a concrete state: an absent directory is created
empty and the read documents become the index contents. -/
theorem load_or_create_index_spec_witness :
    (load_or_create_index sampleLib ⟨false, ["junk"]⟩).1 = FS.mk true [] ∧
    (load_or_create_index sampleLib ⟨false, ["junk"]⟩).2 =
      .ok (Index.mk [] EMBED_MODEL) ∧
    load_or_create_index sampleLib ⟨false, ["junk"]⟩ =
      load_or_create_index sampleLib (FS.mk true []) :=
  ⟨(load_or_create_index_spec sampleLib ⟨false, ["junk"]⟩).2.2.1 rfl,
   (load_or_create_index_spec sampleLib ⟨false, ["junk"]⟩).2.2.2.1 [] rfl,
   (load_or_create_index_spec sampleLib ⟨false, ["junk"]⟩).2.2.2.2 rfl⟩

/-- C8: a `/chat` request whose `mode` is present but none of `"auto"`,
`"llm"`, `"docs"` is answered with HTTP 400 and an error naming the
rejected mode, with no backend invoked and no state change; and the
invalid-mode branch is unreachable when the mode is `"auto"` or absent,
since auto-detection always resolves to `"llm"` or `"docs"`. -/
theorem chat_invalid_mode_400 (st : ServerState) (B : Backends) (msg : String) :
    (∀ m, m ≠ "auto" → m ≠ "llm" → m ≠ "docs" →
      chat st B (some ⟨some msg, some m⟩) =
        ⟨⟨400, [("error", invalidModeError m)]⟩, [], st⟩) ∧
    (∀ m? : Option String, (m? = none ∨ m? = some "auto") →
      (chat st B (some ⟨some msg, m?⟩)).resp.status = 200) := by
  constructor
  · intro m h1 h2 h3
    simp [chat, resolveMode, h1, h2, h3]
  · intro m? h
    rcases h with h | h <;> subst h <;>
      cases hb : AUTO_DOC_KEYWORDS.any (fun k => containsSub k (pyLower (pyStrip msg))) <;>
        simp [chat, resolveMode, autoDetect, hb]

/-- Witness for C8 at a concrete request: mode `"turbo"` is rejected
with a 400 naming it, while mode `"auto"` yields a 200. -/
theorem chat_invalid_mode_400_witness :
    chat sampleState sampleBackends (some ⟨some "hi", some "turbo"⟩) =
      ⟨⟨400, [("error", invalidModeError "turbo")]⟩, [], sampleState⟩ ∧
    (chat sampleState sampleBackends (some ⟨some "hi", some "auto"⟩)).resp.status = 200 :=
  ⟨(chat_invalid_mode_400 sampleState sampleBackends "hi").1 "turbo"
      (by decide) (by decide) (by decide),
   (chat_invalid_mode_400 sampleState sampleBackends "hi").2 (some "auto") (Or.inr rfl)⟩

/-- C9: when rebuilding the index inside `/reload-docs` raises, the
exception propagates, the global index is never reassigned, and a
subsequent `/chat` in docs mode still queries the old index. -/
theorem reload_docs_exception_keeps_index (lib : Lib) (fs : FS)
    (st : ServerState) (fs' : FS) (e : String)
    (h : load_or_create_index lib fs = (fs', .error e)) :
    reload_docs lib fs st = (.error e, fs', st) ∧
    ∀ (B : Backends) (msg : String),
      (chat (reload_docs lib fs st).2.2 B (some ⟨some msg, some "docs"⟩)).calls =
        [.docsQuery st.index st.llm (pyStrip msg)] := by
  have h1 : reload_docs lib fs st = (.error e, fs', st) := by
    unfold reload_docs
    rw [h]
  refine ⟨h1, fun B msg => ?_⟩
  rw [h1]
  simp [chat, resolveMode]

/-- Witness for C9 at a concrete state: a raising reader leaves the old
index in place, and a docs-mode chat still queries it. -/
theorem reload_docs_exception_keeps_index_witness :
    load_or_create_index failLib ⟨true, []⟩ = (⟨true, []⟩, .error "boom") ∧
    reload_docs failLib ⟨true, []⟩ sampleState = (.error "boom", ⟨true, []⟩, sampleState) ∧
    (chat (reload_docs failLib ⟨true, []⟩ sampleState).2.2 sampleBackends
        (some ⟨some "q", some "docs"⟩)).calls =
      [.docsQuery sampleState.index sampleState.llm (pyStrip "q")] :=
  ⟨rfl,
   (reload_docs_exception_keeps_index failLib ⟨true, []⟩ sampleState ⟨true, []⟩ "boom" rfl).1,
   (reload_docs_exception_keeps_index failLib ⟨true, []⟩ sampleState ⟨true, []⟩ "boom" rfl).2
     sampleBackends "q"⟩

end BroOffline
